import Mathlib

/-!
Verification of the record-extraction orchestration engine of the
scrapers-collection repository (SunatScraper, RedjumScraper, ReinfoScraper,
BaseScraper) against its natural-language specification.

The Python sources are shallowly embedded: JSON values become an inductive
`Json` type with Python truthiness; the Chrome devtools performance log
becomes a list of `DevtoolsEvent`s folded over by the network correlator of
`RedjumScraper.extract_dni_info`; the per-key batch loops of
`SunatScraper.scrape` / `RedjumScraper.scrape` become `runBatch` over a list
of keys paired with attempt outcomes; the `try/except/finally` skeleton of
`BaseScraper.run` becomes `run` over step outcomes; and the pagination loop
of `ReinfoScraper` becomes `scrape_all_pages` over a stubbed list of pages.
-/

namespace Scrapers

/-- JSON values as produced by Python's `json.loads`. -/
inductive Json where
  | null : Json
  | bool (b : Bool) : Json
  | num (n : Int) : Json
  | str (s : String) : Json
  | arr (elems : List Json) : Json
  | obj (fields : List (String × Json)) : Json

/-- Python truthiness of a JSON value: `None`, `False`, `0`, `""`, `[]` and
`\x7b\x7d` are falsy, everything else truthy.  This is the test performed by
`if not dni_data:` in `RedjumScraper.extract_dni_info`. -/
def Json.truthy : Json → Bool
  | Json.null => false
  | Json.bool b => b
  | Json.num n => n != 0
  | Json.str s => !s.isEmpty
  | Json.arr elems => !elems.isEmpty
  | Json.obj fields => !fields.isEmpty

/-- `listIsPrefix pat l` is true when `pat` is a prefix of `l`
(character-list version, used to model Python's substring test). -/
def listIsPrefix : List Char → List Char → Bool
  | [], _ => true
  | _ :: _, [] => false
  | a :: as, b :: bs => a = b && listIsPrefix as bs

/-- `listContainsSub pat l` is true when `pat` occurs as a contiguous
sublist of `l`. -/
def listContainsSub (pat : List Char) : List Char → Bool
  | [] => listIsPrefix pat []
  | b :: bs => listIsPrefix pat (b :: bs) || listContainsSub pat bs

/-- Python's `pat in s` substring test on strings. -/
def strIn (pat s : String) : Bool := listContainsSub pat.data s.data

/-! ## Network Event Correlator (`RedjumScraper.extract_dni_info`)

The drained performance log is a list of devtools events.  Fetching and
JSON-parsing a response body (`Network.getResponseBody` + `json.loads`,
both inside the inner `try` that merely logs a warning on failure) is
modelled by an environment function `bodyOf : String → Option Json` from
requestId to parsed body, `none` meaning the fetch or the parse raised. -/

/-- One entry of the drained performance log, after unwrapping the
`message.message` envelope in `extract_dni_info`.  Entries that are neither
`Network.requestWillBeSent` nor `Network.responseReceived` (or that lack the
envelope) are `otherEvent`. -/
inductive DevtoolsEvent where
  | requestWillBeSent (requestId : String) (url : String) : DevtoolsEvent
  | responseReceived (requestId : String) : DevtoolsEvent
  | otherEvent : DevtoolsEvent

/-- URL-pattern test of `intercept_request`:
`"deudoresPorDocumento" in request["request"]["url"]`. -/
def matchesPattern (url : String) : Bool := strIn "deudoresPorDocumento" url

/-- The two `nonlocal` cells of `extract_dni_info`: the remembered
requestId (`obj_request_id`) and the parsed body (`dni_data`). -/
structure CorrState where
  objRequestId : Option String
  dniData : Option Json

/-- One iteration of the `for entry in devtools:` loop of
`extract_dni_info`: a matching `requestWillBeSent` arms `objRequestId`;
a `responseReceived` whose id equals the currently armed id fetches and
parses the body (leaving `dniData` unchanged when that raises); everything
else is ignored. -/
def processEntry (bodyOf : String → Option Json) (st : CorrState) :
    DevtoolsEvent → CorrState
  | DevtoolsEvent.requestWillBeSent rid url =>
      if matchesPattern url then { st with objRequestId := some rid } else st
  | DevtoolsEvent.responseReceived rid =>
      if st.objRequestId = some rid then
        match bodyOf rid with
        | some j => { st with dniData := some j }
        | none => st
      else st
  | DevtoolsEvent.otherEvent => st

/-- The whole drain-and-correlate pass of `extract_dni_info`: fold the
drained log through `processEntry` starting from both cells empty, and
return the final `dni_data`. -/
def drainAndCorrelate (bodyOf : String → Option Json)
    (events : List DevtoolsEvent) : Option Json :=
  (events.foldl (processEntry bodyOf) ⟨none, none⟩).dniData

/-- The observable result of `extract_dni_info` on a drained log:
`Except.error ()` models the `raise Exception("No data found for DNI")`
taken when `dni_data` is `None` or falsy (`if not dni_data:`), and
`Except.ok j` models successful extraction of payload `j` (which the caller
then stores in `self.data`). -/
def extract_dni_info (bodyOf : String → Option Json)
    (events : List DevtoolsEvent) : Except Unit Json :=
  match drainAndCorrelate bodyOf events with
  | some j => if j.truthy then Except.ok j else Except.error ()
  | none => Except.error ()

/-! ## Batch Record Processor (`SunatScraper.scrape` / `RedjumScraper.scrape`)

Both lookup scrapers run the same per-key loop: for each CSV row, navigate
and extract inside `try`, set the row's `result` cell to `"success"`, and on
`except Exception` set it to `"fail"` and `continue`.  A `KeyboardInterrupt`
is not an `Exception`, so it escapes the loop with the current row's status
still the pre-filled empty string from `load_ruc_data`/`load_dni_data`.
The structured dump `self.data` is a Python dict keyed by the input key,
assigned only as the last action of a successful extraction. -/

/-- Outcome of one key's navigate-plus-extract attempt.  `success j` means
the attempt completed and stored payload `j`; `failure` means some
`Exception` was raised during navigation or extraction (caught by the
per-key handler); `interrupt` means a `KeyboardInterrupt` arrived during
the attempt (not caught by the per-key handler). -/
inductive AttemptOutcome where
  | success (payload : Json) : AttemptOutcome
  | failure : AttemptOutcome
  | interrupt : AttemptOutcome

/-- The ledger status the loop writes for an outcome; an interrupted key
keeps the pre-filled empty status. -/
def statusOf : AttemptOutcome → String
  | AttemptOutcome.success _ => "success"
  | AttemptOutcome.failure => "fail"
  | AttemptOutcome.interrupt => ""

/-- Python dict assignment `d[k] = v` on an insertion-ordered association
list: replace in place when the key exists, else append. -/
def setKey : List (String × Json) → String → Json → List (String × Json)
  | [], k, v => [(k, v)]
  | (k1, v1) :: rest, k, v =>
      if k1 = k then (k1, v) :: rest else (k1, v1) :: setKey rest k v

/-- Python dict lookup `d.get(k)`. -/
def lookupKey : List (String × Json) → String → Option Json
  | [], _ => none
  | (k1, v1) :: rest, k => if k1 = k then some v1 else lookupKey rest k

/-- The batch loop of `SunatScraper.scrape` / `RedjumScraper.scrape` over
the input keys paired with their attempt outcomes, starting from dump state
`d`.  Returns the final structured dump and the status ledger (one row per
input key, in input order; rows after an interrupt keep the pre-filled
empty status from the loader). -/
def runBatch (d : List (String × Json)) :
    List (String × AttemptOutcome) → List (String × Json) × List (String × String)
  | [] => (d, [])
  | (k, AttemptOutcome.success j) :: rest =>
      let r := runBatch (setKey d k j) rest
      (r.1, (k, "success") :: r.2)
  | (k, AttemptOutcome.failure) :: rest =>
      let r := runBatch d rest
      (r.1, (k, "fail") :: r.2)
  | (k, AttemptOutcome.interrupt) :: rest =>
      (d, (k, "") :: rest.map (fun p => (p.1, "")))

/-- How `scrape` classifies the result of `extract_dni_info`: a returned
payload becomes a success outcome, a raised exception a failure outcome. -/
def attemptOutcomeOf : Except Unit Json → AttemptOutcome
  | Except.ok j => AttemptOutcome.success j
  | Except.error _ => AttemptOutcome.failure

/-! ## Session Lifecycle Controller (`BaseScraper.run`, `ReinfoScraper.run`)

`run` executes `setup_driver`, `scrape` (for reinfo: navigate, process,
paginate) and `save_results` in order inside `try`; `except (Exception,
KeyboardInterrupt)` logs, calls `save_partial_results`, and re-raises
unless the caught error is a `KeyboardInterrupt`; `finally` runs
`cleanup()`. -/

/-- How one step of the `try` body ends: normally, with an `Exception`, or
with a `KeyboardInterrupt`. -/
inductive StepOutcome where
  | ok : StepOutcome
  | exn : StepOutcome
  | intr : StepOutcome
deriving DecidableEq

/-- Sequencing of two steps: the second runs only when the first ends
normally. -/
def seqOutcome : StepOutcome → StepOutcome → StepOutcome
  | StepOutcome.ok, b => b
  | StepOutcome.exn, _ => StepOutcome.exn
  | StepOutcome.intr, _ => StepOutcome.intr

/-- Observable effects of one `run()` invocation. -/
structure RunTrace where
  savedFull : Bool
  savedPartialResults : Bool
  reraised : Bool
  cleanedUp : Bool
deriving DecidableEq

/-- The `try/except/finally` skeleton of `BaseScraper.run` (identical in
`ReinfoScraper.run`) over the outcomes of driver setup, scraping and the
full save: on normal completion only the full save happened; on any caught
error the timestamped save runs and the error is re-raised unless it was a
`KeyboardInterrupt`; `cleanup()` runs on every path. -/
def run (setup scrape save : StepOutcome) : RunTrace :=
  match seqOutcome setup (seqOutcome scrape save) with
  | StepOutcome.ok =>
      { savedFull := true, savedPartialResults := false,
        reraised := false, cleanedUp := true }
  | StepOutcome.exn =>
      { savedFull := false, savedPartialResults := true,
        reraised := true, cleanedUp := true }
  | StepOutcome.intr =>
      { savedFull := false, savedPartialResults := true,
        reraised := false, cleanedUp := true }

/-! ## Pagination Traversal Engine (`ReinfoScraper`)

The site is stubbed as the sequence of result pages it would present: each
page is the list of `tr` rows of its `table.gvRow`, each row the list of its
`td` cell texts.  The `lblhasta` label (expected total) is carried alongside
but, as in the source, used only for the progress log message. -/

/-- A stubbed sequence of result pages together with the separately-read
`lblhasta` expected-total label. -/
structure Site where
  pages : List (List (List String))
  lblhasta : String

/-- `ReinfoScraper.extract_row_data`: drop the first `td` of the row. -/
def extract_row_data (row : List String) : List String := row.drop 1

/-- `ReinfoScraper.process_current_page`: skip the first three rows of the
table (header/decoration) and extract each remaining data row. -/
def process_current_page (page : List (List String)) : List (List String) :=
  (page.drop 3).map extract_row_data

/-- `ReinfoScraper.has_next_page` on the stub: the browser state is the
suffix of pages from the current one on, and the `ImgBtnSiguiente` control
carries no `disabled` attribute exactly while a further page remains. -/
def has_next_page (remaining : List (List (List String))) : Bool :=
  decide (1 < remaining.length)

/-- `ReinfoScraper.scrape_all_pages`: while the next control is enabled,
process the current page, click next (advance to the next page of the
suffix), and repeat; when the control is disabled, return the accumulated
flat row list as it stands. -/
def scrape_all_pages : List (List (List String)) → List (List String) →
    List (List String)
  | cur :: nxt :: rest, data =>
      scrape_all_pages (nxt :: rest) (data ++ process_current_page cur)
  | _, data => data

/-- The extraction portion of `ReinfoScraper.run`: after navigation lands
on page 0, `process_current_page()` runs once, then `scrape_all_pages()`
takes over from the same page. -/
def reinfo_run_extraction (s : Site) : List (List String) :=
  scrape_all_pages s.pages (process_current_page (s.pages.getD 0 []))

/-! ## Result Persistence Layer paths (`save_results` / `save_partial_results`)

Each `save_results` writes the structured dump then the status ledger; the
model records the pair of file paths written (dump path, ledger path).
`save_partial_results` in `SunatScraper`/`RedjumScraper` passes only the
timestamped JSON path positionally, so the ledger path stays at the
`save_results` default; `ReinfoScraper.save_partial_results` passes both
timestamped paths. -/

/-- File paths written by `SunatScraper.save_partial_results`: the dump
goes to the timestamped JSON name, the ledger to the `save_results`
default CSV name. -/
def sunat_partial_paths (timestamp : String) : String × String :=
  ("data/sunat_scraper_partial_data_" ++ timestamp ++ ".json",
   "data/sunat_scraping_results.csv")

/-- File paths written by `RedjumScraper.save_partial_results`. -/
def redjum_partial_paths (timestamp : String) : String × String :=
  ("data/redjum_scraper_partial_data_" ++ timestamp ++ ".json",
   "data/redjum_scraping_results.csv")

/-- File paths written by `ReinfoScraper.save_partial_results`: both the
text dump and the CSV are timestamped. -/
def reinfo_partial_paths (timestamp : String) : String × String :=
  ("data/reinfo_scraper_partial_data_" ++ timestamp ++ ".txt",
   "data/reinfo_scraper_partial_data_" ++ timestamp ++ ".csv")

/-! ## Scrape entry points (`scrape` with the loaders)

`load_ruc_data`/`load_dni_data` return immediately when no CSV path is
configured (leaving `csv_data` as `None`); a failing read raises.  With
`csv_data` still `None`, `SunatScraper.scrape` raises
`ValueError("No CSV file provided")` while `RedjumScraper.scrape` falls
into its `else: pass` branch and returns normally. -/

/-- How a whole `scrape()` call ends. -/
inductive ScrapeExit where
  | completed : ScrapeExit
  | raisedValueError : ScrapeExit
  | raisedLoadError : ScrapeExit
  | interrupted : ScrapeExit
deriving DecidableEq

/-- Whether an outcome is a `KeyboardInterrupt`. -/
def AttemptOutcome.isInterrupt : AttemptOutcome → Bool
  | AttemptOutcome.interrupt => true
  | _ => false

/-- `SunatScraper.scrape` end-to-end: load the CSV (`csvPath` is the
configured path, `readResult` how `pd.read_csv` would fare, its rows paired
with each key's eventual attempt outcome), then either raise or run the
batch loop. -/
def sunat_scrape (csvPath : Option String)
    (readResult : Except Unit (List (String × AttemptOutcome))) :
    (List (String × Json) × List (String × String)) × ScrapeExit :=
  match csvPath with
  | none => (([], []), ScrapeExit.raisedValueError)
  | some _ =>
    match readResult with
    | Except.error _ => (([], []), ScrapeExit.raisedLoadError)
    | Except.ok rows =>
        (runBatch [] rows,
         if rows.any (fun p => p.2.isInterrupt) then ScrapeExit.interrupted
         else ScrapeExit.completed)

/-- `RedjumScraper.scrape` end-to-end: identical to `sunat_scrape` except
that an absent CSV path takes the `else: pass` branch and completes as a
no-op. -/
def redjum_scrape (csvPath : Option String)
    (readResult : Except Unit (List (String × AttemptOutcome))) :
    (List (String × Json) × List (String × String)) × ScrapeExit :=
  match csvPath with
  | none => (([], []), ScrapeExit.completed)
  | some _ =>
    match readResult with
    | Except.error _ => (([], []), ScrapeExit.raisedLoadError)
    | Except.ok rows =>
        (runBatch [] rows,
         if rows.any (fun p => p.2.isInterrupt) then ScrapeExit.interrupted
         else ScrapeExit.completed)

/-! ## Per-attempt interception scope (`RedjumScraper`, stateful view)

The browser holds an accumulated performance-log buffer (drained by each
`get_log("performance")` call) and the `network_enabled` flag.
`navigate_to_page_with_data` starts with `perform_complete_cleanup`, which
disarms interception and drains the buffer; the site then appends this
attempt's events; `extract_dni_info` arms interception, drains the buffer,
correlates over exactly what it drained, and in its `finally` block disarms
interception again. -/

/-- Browser-side state shared across attempts: the not-yet-drained
performance log buffer and the interception flag. -/
structure Browser where
  perfBuffer : List DevtoolsEvent
  networkEnabled : Bool

/-- `driver.get_log("performance")`: return and empty the buffer. -/
def get_log (b : Browser) : List DevtoolsEvent × Browser :=
  (b.perfBuffer, { b with perfBuffer := [] })

/-- `cleanup_network_listeners`: disarm interception when armed. -/
def cleanup_network_listeners (b : Browser) : Browser :=
  if b.networkEnabled then { b with networkEnabled := false } else b

/-- `perform_complete_cleanup`: disarm interception, then drain the
accumulated log (the cookie/cache/storage clearing has no bearing on
correlation and is not modelled). -/
def perform_complete_cleanup (b : Browser) : Browser :=
  ((get_log (cleanup_network_listeners b)).2)

/-- The site appending freshly generated events to the log buffer. -/
def pushEvents (b : Browser) (events : List DevtoolsEvent) : Browser :=
  { b with perfBuffer := b.perfBuffer ++ events }

/-- `navigate_to_page_with_data` for one attempt: full cleanup first, then
the navigation/submission generates this attempt's events. -/
def navigate_to_page_with_data (b : Browser) (events : List DevtoolsEvent) :
    Browser :=
  pushEvents (perform_complete_cleanup b) events

/-- Stateful `extract_dni_info`: arm interception, drain the log, correlate
over the drained entries, and (in `finally`) disarm interception. -/
def extract_dni_info_st (bodyOf : String → Option Json) (b : Browser) :
    Except Unit Json × Browser :=
  let armed : Browser := { b with networkEnabled := true }
  let drained := get_log armed
  (extract_dni_info bodyOf drained.1, cleanup_network_listeners drained.2)

/-- One key's full attempt as driven by the `scrape` loop body: navigate
(with cleanup), then extract. -/
def attempt (bodyOf : String → Option Json) (b : Browser)
    (events : List DevtoolsEvent) : Except Unit Json × Browser :=
  extract_dni_info_st bodyOf (navigate_to_page_with_data b events)

/-! ## Helper lemmas -/

theorem lookupKey_setKey_self (d : List (String × Json)) (k : String) (v : Json) :
    lookupKey (setKey d k v) k = some v := by
  induction d with
  | nil => simp [setKey, lookupKey]
  | cons p rest ih =>
    obtain ⟨k1, v1⟩ := p
    by_cases h : k1 = k
    · simp [setKey, h, lookupKey]
    · simp [setKey, h, lookupKey, ih]

theorem lookupKey_setKey_ne (d : List (String × Json)) (k k2 : String) (v : Json)
    (h : k ≠ k2) : lookupKey (setKey d k v) k2 = lookupKey d k2 := by
  induction d with
  | nil => simp [setKey, lookupKey, h]
  | cons p rest ih =>
    obtain ⟨k1, v1⟩ := p
    by_cases h1 : k1 = k
    · subst h1
      simp [setKey, lookupKey, h]
    · simp [setKey, h1, lookupKey, ih]

theorem runBatch_ledger (d : List (String × Json))
    (os : List (String × AttemptOutcome))
    (h : ∀ p ∈ os, p.2.isInterrupt = false) :
    (runBatch d os).2 = os.map (fun p => (p.1, statusOf p.2)) := by
  induction os generalizing d with
  | nil => rfl
  | cons p rest ih =>
    obtain ⟨k, o⟩ := p
    have hrest : ∀ q ∈ rest, q.2.isInterrupt = false :=
      fun q hq => h q (List.mem_cons_of_mem _ hq)
    cases o with
    | success j => simp [runBatch, statusOf, ih _ hrest]
    | failure => simp [runBatch, statusOf, ih _ hrest]
    | interrupt =>
      have := h (k, AttemptOutcome.interrupt) (List.mem_cons_self _ _)
      simp [AttemptOutcome.isInterrupt] at this

theorem lookupKey_runBatch_not_mem (d : List (String × Json))
    (os : List (String × AttemptOutcome)) (k : String)
    (h : k ∉ os.map Prod.fst) :
    lookupKey (runBatch d os).1 k = lookupKey d k := by
  induction os generalizing d with
  | nil => rfl
  | cons p rest ih =>
    obtain ⟨k1, o⟩ := p
    simp only [List.map_cons, List.mem_cons, not_or] at h
    obtain ⟨h1, h2⟩ := h
    cases o with
    | success j =>
      rw [show (runBatch d ((k1, AttemptOutcome.success j) :: rest)).1
            = (runBatch (setKey d k1 j) rest).1 from rfl]
      rw [ih _ h2, lookupKey_setKey_ne _ _ _ _ (fun hh => h1 (hh.symm))]
    | failure => exact ih _ h2
    | interrupt => rfl

theorem scrape_all_pages_eq (remaining : List (List (List String)))
    (data : List (List String)) :
    scrape_all_pages remaining data
      = if has_next_page remaining then
          scrape_all_pages remaining.tail
            (data ++ process_current_page (remaining.headD []))
        else data := by
  match remaining with
  | [] => rfl
  | [cur] => rfl
  | cur :: nxt :: rest => simp [scrape_all_pages, has_next_page, Nat.succ_lt_succ_iff]


theorem runBatch_payload_iff_success (os : List (String × AttemptOutcome))
    (d : List (String × Json))
    (hnd : (os.map Prod.fst).Nodup)
    (hd : ∀ k ∈ os.map Prod.fst, lookupKey d k = none) :
    ∀ kv ∈ (runBatch d os).2,
      ((lookupKey (runBatch d os).1 kv.1).isSome ↔ kv.2 = "success") := by
  induction os generalizing d with
  | nil => intro kv hkv; simp [runBatch] at hkv
  | cons p rest ih =>
    obtain ⟨k, o⟩ := p
    simp only [List.map_cons, List.nodup_cons] at hnd
    obtain ⟨hknotmem, hndrest⟩ := hnd
    have hdk : lookupKey d k = none := hd k (by simp)
    have hdrest : ∀ k2 ∈ rest.map Prod.fst, lookupKey d k2 = none :=
      fun k2 hk2 => hd k2 (by simp [hk2])
    intro kv hkv
    cases o with
    | success j =>
      rw [show runBatch d ((k, AttemptOutcome.success j) :: rest)
            = ((runBatch (setKey d k j) rest).1,
               (k, "success") :: (runBatch (setKey d k j) rest).2) from rfl] at hkv ⊢
      rcases List.mem_cons.1 hkv with rfl | hmem
      · rw [show ((runBatch (setKey d k j) rest).1,
              (k, "success") :: (runBatch (setKey d k j) rest).2).1
            = (runBatch (setKey d k j) rest).1 from rfl,
          lookupKey_runBatch_not_mem _ _ _ hknotmem, lookupKey_setKey_self]
        simp
      · exact ih (setKey d k j) hndrest
          (fun k2 hk2 => by
            rw [lookupKey_setKey_ne _ _ _ _ (fun hh => hknotmem (by rw [hh]; exact hk2))]
            exact hdrest k2 hk2) kv hmem
    | failure =>
      rw [show runBatch d ((k, AttemptOutcome.failure) :: rest)
            = ((runBatch d rest).1, (k, "fail") :: (runBatch d rest).2) from rfl] at hkv ⊢
      rcases List.mem_cons.1 hkv with rfl | hmem
      · rw [show ((runBatch d rest).1, (k, "fail") :: (runBatch d rest).2).1
            = (runBatch d rest).1 from rfl,
          lookupKey_runBatch_not_mem _ _ _ hknotmem, hdk]
        simp
      · exact ih d hndrest hdrest kv hmem
    | interrupt =>
      rw [show runBatch d ((k, AttemptOutcome.interrupt) :: rest)
            = (d, (k, "") :: rest.map (fun p => (p.1, ""))) from rfl] at hkv ⊢
      rcases List.mem_cons.1 hkv with rfl | hmem
      · rw [show ((d, (k, "") :: rest.map (fun p => (p.1, ""))) :
              List (String × Json) × List (String × String)).1 = d from rfl, hdk]
        simp
      · obtain ⟨q, hq, rfl⟩ := List.mem_map.1 hmem
        rw [show ((d, (k, "") :: rest.map (fun p => (p.1, ""))) :
              List (String × Json) × List (String × String)).1 = d from rfl]
        rw [hdrest q.1 (List.mem_map_of_mem _ hq)]
        simp

theorem foldl_objRequestId_stable (bodyOf : String → Option Json)
    (l : List DevtoolsEvent) :
    ∀ st : CorrState,
      (∀ e ∈ l, ∀ rid url, e = DevtoolsEvent.requestWillBeSent rid url →
        matchesPattern url = false) →
      (l.foldl (processEntry bodyOf) st).objRequestId = st.objRequestId := by
  induction l with
  | nil => intro st _; rfl
  | cons e rest ih =>
    intro st h
    have hrest := fun e2 he2 => h e2 (List.mem_cons_of_mem _ he2)
    rw [List.foldl_cons, ih _ hrest]
    cases e with
    | requestWillBeSent rid url =>
      have hm : matchesPattern url = false :=
        h _ (List.mem_cons_self _ _) rid url rfl
      simp [processEntry, hm]
    | responseReceived rid =>
      simp only [processEntry]
      by_cases hc : st.objRequestId = some rid
      · rw [if_pos hc]
        cases hb : bodyOf rid
        · rfl
        · rfl
      · rw [if_neg hc]
    | otherEvent => rfl

theorem foldl_dniData_stable (bodyOf : String → Option Json)
    (l : List DevtoolsEvent) :
    ∀ st : CorrState,
      (∀ e ∈ l, ∀ rid, e ≠ DevtoolsEvent.responseReceived rid) →
      (l.foldl (processEntry bodyOf) st).dniData = st.dniData := by
  induction l with
  | nil => intro st _; rfl
  | cons e rest ih =>
    intro st h
    have hrest := fun e2 he2 => h e2 (List.mem_cons_of_mem _ he2)
    rw [List.foldl_cons, ih _ hrest]
    cases e with
    | requestWillBeSent rid url =>
      simp only [processEntry]
      by_cases hm : matchesPattern url
      · rw [if_pos hm]
      · rw [if_neg hm]
    | responseReceived rid =>
      exact absurd rfl (h _ (List.mem_cons_self _ _) rid)
    | otherEvent => rfl

theorem correlator_recovers_of_ordered (bodyOf : String → Option Json)
    (l1 l2 l3 : List DevtoolsEvent) (r u : String) (v : Json)
    (hu : matchesPattern u = true)
    (hb : bodyOf r = some v)
    (h2 : ∀ e ∈ l2, ∀ rid url, e = DevtoolsEvent.requestWillBeSent rid url →
      matchesPattern url = false)
    (h3 : ∀ e ∈ l3, ∀ rid, e ≠ DevtoolsEvent.responseReceived rid) :
    drainAndCorrelate bodyOf
      (l1 ++ DevtoolsEvent.requestWillBeSent r u
        :: (l2 ++ DevtoolsEvent.responseReceived r :: l3)) = some v := by
  unfold drainAndCorrelate
  rw [List.foldl_append, List.foldl_cons, List.foldl_append, List.foldl_cons]
  set st1 := l1.foldl (processEntry bodyOf) ⟨none, none⟩ with hst1
  have hreq : processEntry bodyOf st1 (DevtoolsEvent.requestWillBeSent r u)
      = { st1 with objRequestId := some r } := by
    simp [processEntry, hu]
  rw [hreq]
  set st3 := l2.foldl (processEntry bodyOf) { st1 with objRequestId := some r }
    with hst3
  have hmid : st3.objRequestId = some r := by
    rw [hst3, foldl_objRequestId_stable bodyOf l2 _ h2]
  have hresp : processEntry bodyOf st3 (DevtoolsEvent.responseReceived r)
      = { st3 with dniData := some v } := by
    simp [processEntry, hmid, hb]
  rw [hresp, foldl_dniData_stable bodyOf l3 _ h3]

/-! ## Claim theorems -/

/-- C1 counterexample: the claim fails as stated when the input contains a
duplicated key.  With key "A" succeeding on its first row and failing on
its second, the ledger row ("A", "fail") refers to a key whose payload is
present in the dump (stored by the earlier successful attempt), so the
payload-present-iff-status-success equivalence is violated. -/
theorem c1_counterexample :
    ¬ (∀ os : List (String × AttemptOutcome), ∀ kv ∈ (runBatch [] os).2,
        ((lookupKey (runBatch [] os).1 kv.1).isSome ↔ kv.2 = "success")) := by
  intro hall
  have h := hall
    [("A", AttemptOutcome.success (Json.str "p")), ("A", AttemptOutcome.failure)]
    ("A", "fail") (by decide)
  exact absurd (h.mp (by decide)) (by decide)

/-- C1 (amended): for every run whose input keys are pairwise distinct, and
for every row of the status ledger - at normal completion and equally in
the state flushed by the partial save on the failure path, including an
interrupt that leaves trailing rows with the pre-filled pending status -
the structured dump contains a payload for that row's key if and only if
the row's status is "success". -/
theorem c1_payload_iff_success (os : List (String × AttemptOutcome))
    (hnd : (os.map Prod.fst).Nodup) :
    ∀ kv ∈ (runBatch [] os).2,
      ((lookupKey (runBatch [] os).1 kv.1).isSome ↔ kv.2 = "success") :=
  runBatch_payload_iff_success os [] hnd (fun _ _ => rfl)

theorem c1_payload_iff_success_witness :
    ((lookupKey (runBatch []
        [("A", AttemptOutcome.success (Json.str "p")),
         ("B", AttemptOutcome.failure)]).1 "B").isSome ↔ "fail" = "success") :=
  c1_payload_iff_success
    [("A", AttemptOutcome.success (Json.str "p")), ("B", AttemptOutcome.failure)]
    (by decide) ("B", "fail") (by decide)

/-- C2 (confirmed): in a batch whose attempts raise only ordinary
exceptions (no operator interrupt), an exception at one key writes "fail"
for that key and the loop continues: every preceding and every following
key still receives the ledger status of its own attempt. -/
theorem c2_single_failure_never_aborts_batch (d : List (String × Json))
    (pre post : List (String × AttemptOutcome)) (k : String)
    (hpre : ∀ p ∈ pre, p.2.isInterrupt = false)
    (hpost : ∀ p ∈ post, p.2.isInterrupt = false) :
    (runBatch d (pre ++ (k, AttemptOutcome.failure) :: post)).2
      = pre.map (fun p => (p.1, statusOf p.2))
        ++ (k, "fail") :: post.map (fun p => (p.1, statusOf p.2)) := by
  rw [runBatch_ledger]
  · simp [statusOf]
  · intro p hp
    rcases List.mem_append.1 hp with hl | hr
    · exact hpre p hl
    · rcases List.mem_cons.1 hr with rfl | hr2
      · rfl
      · exact hpost p hr2

theorem c2_single_failure_never_aborts_batch_witness :
    (runBatch []
      [("A", AttemptOutcome.failure), ("B", AttemptOutcome.success Json.null)]).2
      = [("A", "fail"), ("B", "success")] :=
  c2_single_failure_never_aborts_batch [] []
    [("B", AttemptOutcome.success Json.null)] "A"
    (by intro p hp; exact absurd hp (List.not_mem_nil p))
    (by intro p hp; rw [List.mem_singleton] at hp; rw [hp]; rfl)

/-- C5 (confirmed): for every interrupt-free run, the ledger produced at
end-of-run has exactly one row per input key, in input order, and each row
carries the terminal status ("success" or "fail") of that key's own
attempt. -/
theorem c5_ledger_one_row_per_key_in_order (d : List (String × Json))
    (os : List (String × AttemptOutcome))
    (h : ∀ p ∈ os, p.2.isInterrupt = false) :
    (runBatch d os).2 = os.map (fun p => (p.1, statusOf p.2)) ∧
    ∀ p ∈ os, statusOf p.2 = "success" ∨ statusOf p.2 = "fail" := by
  refine ⟨runBatch_ledger d os h, ?_⟩
  intro p hp
  cases ho : p.2 with
  | success j => left; rfl
  | failure => right; rfl
  | interrupt =>
    have := h p hp
    rw [ho] at this
    simp [AttemptOutcome.isInterrupt] at this

theorem c5_ledger_one_row_per_key_in_order_witness :
    (runBatch []
      [("A", AttemptOutcome.success Json.null), ("B", AttemptOutcome.failure)]).2
      = [("A", "success"), ("B", "fail")] :=
  (c5_ledger_one_row_per_key_in_order []
    [("A", AttemptOutcome.success Json.null), ("B", AttemptOutcome.failure)]
    (by intro p hp; rcases List.mem_cons.1 hp with rfl | hp2
        · rfl
        · rw [List.mem_singleton] at hp2; rw [hp2]; rfl)).1

/-- C3 (code_bug): the registry-dump traversal does not append each page's
data rows exactly once.  `run()` processes page 1, then `scrape_all_pages`
re-processes the still-current page 1 before the first click and exits as
soon as the next control reports disabled, i.e. before processing the last
page.  On a two-page stub the produced rows are page 1's rows twice and
page 2's rows never, diverging from the once-each-in-order result; loop
control is indeed independent of the separately-read expected total. -/
theorem c3_pagination_duplicates_first_page_and_skips_last :
    (∀ pages t1 t2,
      reinfo_run_extraction ⟨pages, t1⟩ = reinfo_run_extraction ⟨pages, t2⟩) ∧
    reinfo_run_extraction
      ⟨[[["h"], ["h"], ["h"], ["x", "a1", "a2"]],
        [["h"], ["h"], ["h"], ["x", "b1", "b2"]]], "2"⟩
      = [["a1", "a2"], ["a1", "a2"]] ∧
    [["a1", "a2"], ["a1", "a2"]]
      ≠ ([[["h"], ["h"], ["h"], ["x", "a1", "a2"]],
          [["h"], ["h"], ["h"], ["x", "b1", "b2"]]].map process_current_page).flatten := by
  refine ⟨fun pages t1 t2 => rfl, by decide, by decide⟩

/-- C4 (confirmed): whenever the `try` body of `run()` (driver setup, then
scraping, then the full save) does not complete normally, the partial save
runs and the failure is re-raised exactly when it is not a
`KeyboardInterrupt`; browser teardown runs on every exit path, success or
failure. -/
theorem c4_partial_save_reraise_and_teardown (setup scrape save : StepOutcome)
    (h : seqOutcome setup (seqOutcome scrape save) ≠ StepOutcome.ok) :
    (run setup scrape save).savedPartialResults = true ∧
    (run setup scrape save).savedFull = false ∧
    ((run setup scrape save).reraised = true
        ↔ seqOutcome setup (seqOutcome scrape save) ≠ StepOutcome.intr) ∧
    (∀ a b c : StepOutcome, (run a b c).cleanedUp = true) := by
  refine ⟨?_, ?_, ?_, ?_⟩
  · cases hs : seqOutcome setup (seqOutcome scrape save)
    · exact absurd hs h
    · simp [run, hs]
    · simp [run, hs]
  · cases hs : seqOutcome setup (seqOutcome scrape save)
    · exact absurd hs h
    · simp [run, hs]
    · simp [run, hs]
  · cases hs : seqOutcome setup (seqOutcome scrape save)
    · exact absurd hs h
    · simp [run, hs]
    · simp [run, hs]
  · intro a b c
    cases hs : seqOutcome a (seqOutcome b c) <;> simp [run, hs]

theorem c4_partial_save_reraise_and_teardown_witness :
    (run StepOutcome.ok StepOutcome.exn StepOutcome.ok).savedPartialResults = true ∧
    (run StepOutcome.ok StepOutcome.intr StepOutcome.ok).reraised = false :=
  ⟨(c4_partial_save_reraise_and_teardown StepOutcome.ok StepOutcome.exn
      StepOutcome.ok (by decide)).1,
   by
    have h := (c4_partial_save_reraise_and_teardown StepOutcome.ok
      StepOutcome.intr StepOutcome.ok (by decide)).2.2.1
    revert h
    decide⟩

/-- C6 counterexample: the correlator is a single forward pass, so it does
not recover the payload regardless of event order.  For a drained stream
holding a response event followed by the matching request event bearing the
same requestId, `dni_data` stays `None`, whereas the reversed stream
recovers the parsed body. -/
theorem c6_counterexample :
    drainAndCorrelate (fun _ => some (Json.str "d"))
      [DevtoolsEvent.responseReceived "1",
       DevtoolsEvent.requestWillBeSent "1"
         "https://redjum.pj.gob.pe/services/deudoresPorDocumento"]
      = none ∧
    drainAndCorrelate (fun _ => some (Json.str "d"))
      [DevtoolsEvent.requestWillBeSent "1"
         "https://redjum.pj.gob.pe/services/deudoresPorDocumento",
       DevtoolsEvent.responseReceived "1"]
      = some (Json.str "d") :=
  ⟨rfl, rfl⟩

/-- C6 (amended): the correlator recovers and parses the response body of a
matched exchange provided the pattern-matching request event precedes the
same-id response event in the drained stream, no other pattern-matching
request event re-arms the correlator between the two, and no later response
event overwrites the recovered value. -/
theorem c6_correlator_recovers_request_before_response
    (bodyOf : String → Option Json) (l1 l2 l3 : List DevtoolsEvent)
    (r u : String) (v : Json)
    (hu : matchesPattern u = true)
    (hb : bodyOf r = some v)
    (h2 : ∀ e ∈ l2, ∀ rid url, e = DevtoolsEvent.requestWillBeSent rid url →
      matchesPattern url = false)
    (h3 : ∀ e ∈ l3, ∀ rid, e ≠ DevtoolsEvent.responseReceived rid) :
    drainAndCorrelate bodyOf
      (l1 ++ DevtoolsEvent.requestWillBeSent r u
        :: (l2 ++ DevtoolsEvent.responseReceived r :: l3)) = some v :=
  correlator_recovers_of_ordered bodyOf l1 l2 l3 r u v hu hb h2 h3

theorem c6_correlator_recovers_request_before_response_witness :
    drainAndCorrelate (fun _ => some (Json.str "d"))
      ([DevtoolsEvent.otherEvent]
        ++ DevtoolsEvent.requestWillBeSent "9"
             "https://redjum.pj.gob.pe/services/deudoresPorDocumento"
        :: ([] ++ DevtoolsEvent.responseReceived "9" :: []))
      = some (Json.str "d") :=
  c6_correlator_recovers_request_before_response
    (fun _ => some (Json.str "d")) [DevtoolsEvent.otherEvent] [] []
    "9" "https://redjum.pj.gob.pe/services/deudoresPorDocumento" (Json.str "d")
    (by decide) rfl
    (by intro e he; exact absurd he (List.not_mem_nil e))
    (by intro e he; exact absurd he (List.not_mem_nil e))

/-- C7 (confirmed): an attempt's extraction result is a function of the
events generated during that attempt alone - the cleanup drain at the start
of navigation discards whatever the browser buffer still held from earlier
attempts - and the attempt leaves network interception disarmed for the
next attempt. -/
theorem c7_interception_scoped_per_attempt (bodyOf : String → Option Json)
    (b1 b2 : Browser) (events : List DevtoolsEvent) :
    (attempt bodyOf b1 events).1 = extract_dni_info bodyOf events ∧
    (attempt bodyOf b1 events).1 = (attempt bodyOf b2 events).1 ∧
    (attempt bodyOf b1 events).2.networkEnabled = false :=
  ⟨rfl, rfl, rfl⟩

theorem listIsPrefix_append (l t : List Char) : listIsPrefix l (l ++ t) = true := by
  induction l with
  | nil => rfl
  | cons a as ih => simp [listIsPrefix, ih]

theorem listContainsSub_middle (pat l1 l2 : List Char) :
    listContainsSub pat (l1 ++ (pat ++ l2)) = true := by
  induction l1 with
  | nil =>
    cases pat with
    | nil =>
      cases l2 with
      | nil => rfl
      | cons c cs => simp [listContainsSub, listIsPrefix]
    | cons p ps =>
      simp only [List.nil_append, listContainsSub]
      have hpre : listIsPrefix (p :: ps) (p :: ps.append l2) = true :=
        listIsPrefix_append (p :: ps) l2
      rw [hpre, Bool.true_or]
  | cons c cs ih =>
    simp [listContainsSub, ih]

theorem strIn_middle (ts s1 s2 : String) : strIn ts (s1 ++ ts ++ s2) = true := by
  unfold strIn
  rw [String.data_append, String.data_append, List.append_assoc]
  exact listContainsSub_middle ts.data s1.data s2.data

/-- C8 counterexample: on the failure path `SunatScraper.save_partial_results`
passes only the timestamped JSON path to `save_results`, so the status
ledger is written to the untagged default CSV path, which does not contain
the run timestamp. -/
theorem c8_counterexample :
    (sunat_partial_paths "20250101_120000").2 = "data/sunat_scraping_results.csv" ∧
    strIn "20250101_120000" (sunat_partial_paths "20250101_120000").2 = false :=
  ⟨rfl, by decide⟩

/-- C8 (amended): on the failure path the registry-dump scraper writes both
partial artifacts to timestamp-tagged names, while the two lookup scrapers
tag only the structured dump's partial file and write the status ledger to
its default, untagged path. -/
theorem c8_partial_paths_tagging (ts : String) :
    strIn ts (reinfo_partial_paths ts).1 = true ∧
    strIn ts (reinfo_partial_paths ts).2 = true ∧
    strIn ts (sunat_partial_paths ts).1 = true ∧
    strIn ts (redjum_partial_paths ts).1 = true ∧
    (sunat_partial_paths ts).2 = "data/sunat_scraping_results.csv" ∧
    (redjum_partial_paths ts).2 = "data/redjum_scraping_results.csv" :=
  ⟨strIn_middle ts "data/reinfo_scraper_partial_data_" ".txt",
   strIn_middle ts "data/reinfo_scraper_partial_data_" ".csv",
   strIn_middle ts "data/sunat_scraper_partial_data_" ".json",
   strIn_middle ts "data/redjum_scraper_partial_data_" ".json",
   rfl, rfl⟩

/-- C9 counterexample: with no CSV path configured, `RedjumScraper.scrape`
takes its `else: pass` branch and completes as a silent no-op with empty
outputs instead of raising a configuration error. -/
theorem c9_counterexample :
    (redjum_scrape none (Except.ok [])).2 = ScrapeExit.completed ∧
    ScrapeExit.completed ≠ ScrapeExit.raisedValueError ∧
    ScrapeExit.completed ≠ ScrapeExit.raisedLoadError :=
  ⟨rfl, by decide, by decide⟩

/-- C9 (amended): the sunat lookup strategy raises on an absent key source
(`ValueError`) and on an unloadable one (the read error propagates); the
redjum lookup strategy raises on an unloadable key source but completes as
a silent no-op with empty outputs when the key source is absent (its
dump-everything mode is unimplemented). -/
theorem c9_absent_input_behavior
    (readResult : Except Unit (List (String × AttemptOutcome))) (path : String) :
    (sunat_scrape none readResult).2 = ScrapeExit.raisedValueError ∧
    (sunat_scrape (some path) (Except.error ())).2 = ScrapeExit.raisedLoadError ∧
    (redjum_scrape (some path) (Except.error ())).2 = ScrapeExit.raisedLoadError ∧
    (redjum_scrape none readResult).2 = ScrapeExit.completed ∧
    (redjum_scrape none readResult).1 = ([], []) :=
  ⟨rfl, rfl, rfl, rfl, rfl⟩

/-- C10 (confirmed): when a correlated response body parses to a falsy JSON
value, `extract_dni_info` raises exactly as it does when no matching
exchange was observed at all, the key's ledger row becomes "fail", and the
dump is left unchanged - the two situations are indistinguishable at the
public interface. -/
theorem c10_falsy_payload_fails_like_no_exchange
    (bodyOf g : String → Option Json) (events events2 : List DevtoolsEvent)
    (k : String) (d : List (String × Json)) (j : Json)
    (h1 : drainAndCorrelate bodyOf events = some j)
    (h2 : j.truthy = false)
    (h3 : drainAndCorrelate g events2 = none) :
    extract_dni_info bodyOf events = Except.error () ∧
    extract_dni_info bodyOf events = extract_dni_info g events2 ∧
    runBatch d [(k, attemptOutcomeOf (extract_dni_info bodyOf events))]
      = (d, [(k, "fail")]) := by
  have he : extract_dni_info bodyOf events = Except.error () := by
    simp [extract_dni_info, h1, h2]
  have he2 : extract_dni_info g events2 = Except.error () := by
    simp [extract_dni_info, h3]
  refine ⟨he, by rw [he, he2], ?_⟩
  rw [he]
  rfl

theorem c10_falsy_payload_fails_like_no_exchange_witness :
    extract_dni_info (fun _ => some (Json.obj []))
      [DevtoolsEvent.requestWillBeSent "5"
         "https://redjum.pj.gob.pe/services/deudoresPorDocumento",
       DevtoolsEvent.responseReceived "5"] = Except.error () :=
  (c10_falsy_payload_fails_like_no_exchange
    (fun _ => some (Json.obj [])) (fun _ => none)
    [DevtoolsEvent.requestWillBeSent "5"
       "https://redjum.pj.gob.pe/services/deudoresPorDocumento",
     DevtoolsEvent.responseReceived "5"] []
    "k" [] (Json.obj []) rfl rfl rfl).1

end Scrapers
